import Mathlib

/-!
Shallow embedding of the `data_catalog_exp` repository: the identifier codec,
the key-inference engine (`KeysProcessing`), the catalog builder/emitter
(`datahub_tools`), and the statistics generators (`generate_stats`,
`push_stats`), together with theorems settling the specification claims.
-/

namespace DataCatalog

/-- One row of the foreign-key fact table fetched from the relational
database (`fks_info_df`). -/
structure KeyFactRow where
  parent_table : String
  parent_key : String
  child_table : String
  child_key : String
deriving Repr, DecidableEq

/-- A raw schema field as found in the catalog snapshot JSON:
`fieldPath` plus the string type tag at `field["type"]["type"]["__type"]`. -/
structure RawField where
  fieldPath : String
  typeTag : String
deriving Repr, DecidableEq

/-- Character-level embedding of Python `str.split(sep)` for a one-character
separator: split at every occurrence of the separator, keeping empty groups,
and return `[[]]` on the empty string — exactly the semantics the source
relies on in `extract_table_name`. -/
def splitOnChar (sep : Char) : List Char → List (List Char)
  | [] => [[]]
  | c :: cs =>
    if c = sep then [] :: splitOnChar sep cs
    else
      match splitOnChar sep cs with
      | [] => [[c]]
      | g :: gs => (c :: g) :: gs

/-- Embedding of `KeysProcessing.extract_table_name`
(src/datahub_foreign_keys/modules/key_extractor.py): split the URN on
commas; with fewer than two parts return the empty string (the recoverable
failure marker); otherwise take the second-to-last comma part and return
its last dot segment.  The Python body is wrapped in try/except returning
the empty string, but no statement in it can raise; the Lean embedding is a
total function. -/
def extract_table_name (urn : String) : String :=
  let parts := splitOnChar ',' urn.data
  if parts.length < 2 then ""
  else ⟨(splitOnChar '.' (parts.getD (parts.length - 2) [])).getLastD []⟩

/-- C3: `extract_table_name` on an identifier with at least two
comma-segments returns the last dot-segment of the second-to-last
comma-segment (here phrased through `List.reverse`), and on fewer than two
comma-segments returns the recoverable-failure marker `""`.  Totality of
the Lean function embeds the never-raises part of the claim. -/
theorem extract_table_name_spec (urn : String) :
    (2 ≤ (splitOnChar ',' urn.data).length →
      extract_table_name urn =
        ⟨(splitOnChar '.' ((splitOnChar ',' urn.data).reverse.getD 1 [])).reverse.headD []⟩) ∧
    ((splitOnChar ',' urn.data).length < 2 → extract_table_name urn = "") := by
  constructor
  · intro h
    have hlt : ¬ (splitOnChar ',' urn.data).length < 2 := Nat.not_lt.mpr h
    unfold extract_table_name
    simp only [hlt, if_false]
    have hrev : (splitOnChar ',' urn.data).getD ((splitOnChar ',' urn.data).length - 2) [] =
        (splitOnChar ',' urn.data).reverse.getD 1 [] := by
      have h1 : 1 + ((splitOnChar ',' urn.data).length - 2) + 1 =
          (splitOnChar ',' urn.data).length := by omega
      simp only [List.getD_eq_getElem?_getD]
      rw [List.getElem?_reverse' 1 ((splitOnChar ',' urn.data).length - 2) h1]
    rw [hrev]
    have hlast : ∀ (l : List (List Char)),
        l.getLastD [] = l.reverse.headD [] := by
      intro l
      rw [List.getLastD_eq_getLast?, List.getLast?_eq_head?_reverse,
        List.headD_eq_head?]
    rw [hlast]
  · intro h
    unfold extract_table_name
    simp only [h, if_true]

/-- Witness for C3 at the concrete identifier from the spec scenario. -/
theorem extract_table_name_spec_witness :
    (2 ≤ (splitOnChar ',' ("urn:li:dataset:(urn:li:dataPlatform:mssql,ekofisk.CubeDevTest.UCube.BridgeCompanySubsidiary,DEV)").data).length) ∧
    extract_table_name
      "urn:li:dataset:(urn:li:dataPlatform:mssql,ekofisk.CubeDevTest.UCube.BridgeCompanySubsidiary,DEV)" =
      ⟨(splitOnChar '.' ((splitOnChar ',' ("urn:li:dataset:(urn:li:dataPlatform:mssql,ekofisk.CubeDevTest.UCube.BridgeCompanySubsidiary,DEV)").data).reverse.getD 1 [])).reverse.headD []⟩ :=
  ⟨by decide,
   (extract_table_name_spec
     "urn:li:dataset:(urn:li:dataPlatform:mssql,ekofisk.CubeDevTest.UCube.BridgeCompanySubsidiary,DEV)").1
     (by decide)⟩

/-- Embedding of Python `bool(re.match(r'PK\w+', col))`: the field path
starts with the literal characters `P`, `K` followed by at least one word
character (`\w`, embedded as alphanumeric or underscore). -/
def matchPK (s : String) : Bool :=
  match s.data with
  | 'P' :: 'K' :: c :: _ => c.isAlphanum || c = '_'
  | _ => false

/-- Embedding of pandas `Series.unique`: distinct values in order of first
appearance. -/
def uniqueFirst : List String → List String
  | [] => []
  | x :: xs => x :: uniqueFirst (xs.filter (fun y => ¬ y = x))
termination_by l => l.length
decreasing_by
  simp only [List.length_cons]
  exact Nat.lt_succ_of_le (List.length_filter_le _ _)

/-- Embedding of `KeysProcessing.get_pks`
(src/datahub_foreign_keys/modules/key_extractor.py).  `fks_info` stands for
the rows of `fks_info_df`, and `fields` for the list at
`urn_json['responses'][urn]['aspects']['schemaMetadata']['value']['fields']`.
If the table name cannot be extracted the function returns `[]` before
touching the snapshot; otherwise it extends `pks` with the unique
`parent_key` values of rows whose `parent_table` equals the table name
(when any exist), then appends every column name matching `PK\w+`. -/
def get_pks (fks_info : List KeyFactRow) (urn : String) (fields : List RawField) :
    List String :=
  let table_name := extract_table_name urn
  if table_name = "" then []
  else
    let column_names := fields.map (·.fieldPath)
    let pks :=
      if fks_info.any (fun r => r.parent_table = table_name) then
        uniqueFirst ((fks_info.filter (fun r => r.parent_table = table_name)).map
          (·.parent_key))
      else []
    pks ++ column_names.filter (fun c => matchPK c)

/-- A foreign-key dictionary as built by `KeysProcessing.get_fks` and
consumed by `DatahubCustomEmitter.emit_keys`. -/
structure FKDict where
  name : String
  sourceFields : List String
  foreignFields : List String
  foreignDataset : String
deriving Repr, DecidableEq

/-- Embedding of `KeysProcessing.get_fks`
(src/datahub_foreign_keys/modules/key_extractor.py): one dictionary per
fact row whose `child_table` equals the extracted table name, with
`name = child_key`, `sourceFields = [child_key]`,
`foreignFields = [parent_key]`, and `foreignDataset` an mssql dataset URN
built from the invocation-time server/db/schema, the row's `parent_table`
and the hardcoded environment literal `DEV`. -/
def get_fks (fks_info : List KeyFactRow) (urn server db schema : String) :
    List FKDict :=
  let table_name := extract_table_name urn
  if table_name = "" then []
  else if fks_info.any (fun r => r.child_table = table_name) then
    (fks_info.filter (fun r => r.child_table = table_name)).map (fun row =>
      { name := row.child_key
        sourceFields := [row.child_key]
        foreignFields := [row.parent_key]
        foreignDataset :=
          "urn:li:dataset:(urn:li:dataPlatform:mssql," ++ server ++ "." ++ db ++
            "." ++ schema ++ "." ++ row.parent_table ++ ",DEV)" })
  else []

/-- A list whose Boolean `any` for a predicate is false filters to `[]`
under that predicate. -/
theorem filter_eq_nil_of_not_any {α : Type} (p : α → Bool) (l : List α)
    (h : l.any p = false) : l.filter p = [] := by
  refine List.filter_eq_nil_iff.mpr ?_
  intro a ha hpa
  have : l.any p = true := List.any_eq_true.mpr ⟨a, ha, hpa⟩
  rw [this] at h
  exact Bool.true_eq_false.mp h

/-- C1: for every fact table and every dataset whose identifier parses to a
table name, `get_pks` is the ordered union of candidate set A — the
distinct `parent_key` values of rows whose `parent_table` equals the table
name, in order of appearance — followed by candidate set B — every
snapshot field path matching `PK\w+`, in snapshot field order; no
deduplication is performed between A and B, so a path occurring in both
appears at least twice (its occurrence counts add). -/
theorem get_pks_ordered_union (fks_info : List KeyFactRow) (urn : String)
    (fields : List RawField) (h : ¬ extract_table_name urn = "") :
    get_pks fks_info urn fields =
      uniqueFirst ((fks_info.filter
          (fun r => r.parent_table = extract_table_name urn)).map (·.parent_key))
        ++ (fields.map (·.fieldPath)).filter (fun c => matchPK c) ∧
    ∀ p : String,
      (get_pks fks_info urn fields).count p =
        (uniqueFirst ((fks_info.filter
            (fun r => r.parent_table = extract_table_name urn)).map (·.parent_key))).count p
          + ((fields.map (·.fieldPath)).filter (fun c => matchPK c)).count p := by
  have hmain : get_pks fks_info urn fields =
      uniqueFirst ((fks_info.filter
          (fun r => r.parent_table = extract_table_name urn)).map (·.parent_key))
        ++ (fields.map (·.fieldPath)).filter (fun c => matchPK c) := by
    unfold get_pks
    simp only [h, if_false]
    by_cases hany : fks_info.any (fun r => r.parent_table = extract_table_name urn)
    · simp only [hany, if_true]
    · have hb : (fks_info.any (fun r => r.parent_table = extract_table_name urn)) = false :=
        Bool.eq_false_iff.mpr hany
      have hf : fks_info.filter (fun r => r.parent_table = extract_table_name urn) = [] :=
        filter_eq_nil_of_not_any _ _ hb
      rw [hb, hf]
      simp [uniqueFirst]
  refine ⟨hmain, fun p => ?_⟩
  rw [hmain, List.count_append]

/-- Witness for C1: the fact table of the spec scenario plus a `PkCompany`
column that occurs both as a matching `parent_key` and as a `PK`-prefixed
field path, so it appears twice in the result. -/
theorem get_pks_ordered_union_witness :
    (¬ extract_table_name
        "urn:li:dataset:(urn:li:dataPlatform:mssql,ekofisk.CubeDevTest.UCube.Company,DEV)" = "") ∧
    (get_pks [⟨"Company", "PkCompany", "BridgeCompanySubsidiary", "FkCompany"⟩]
        "urn:li:dataset:(urn:li:dataPlatform:mssql,ekofisk.CubeDevTest.UCube.Company,DEV)"
        [⟨"PkCompany", "NumberType"⟩] =
      uniqueFirst (([⟨"Company", "PkCompany", "BridgeCompanySubsidiary", "FkCompany"⟩].filter
          (fun r : KeyFactRow => r.parent_table = extract_table_name
            "urn:li:dataset:(urn:li:dataPlatform:mssql,ekofisk.CubeDevTest.UCube.Company,DEV)")).map
          (·.parent_key))
        ++ (([⟨"PkCompany", "NumberType"⟩] : List RawField).map (·.fieldPath)).filter
          (fun c => matchPK c) ∧
      ∀ p : String,
        (get_pks [⟨"Company", "PkCompany", "BridgeCompanySubsidiary", "FkCompany"⟩]
          "urn:li:dataset:(urn:li:dataPlatform:mssql,ekofisk.CubeDevTest.UCube.Company,DEV)"
          [⟨"PkCompany", "NumberType"⟩]).count p =
        (uniqueFirst (([⟨"Company", "PkCompany", "BridgeCompanySubsidiary", "FkCompany"⟩].filter
            (fun r : KeyFactRow => r.parent_table = extract_table_name
              "urn:li:dataset:(urn:li:dataPlatform:mssql,ekofisk.CubeDevTest.UCube.Company,DEV)")).map
            (·.parent_key))).count p
          + ((([⟨"PkCompany", "NumberType"⟩] : List RawField).map (·.fieldPath)).filter
            (fun c => matchPK c)).count p) :=
  ⟨by decide,
   get_pks_ordered_union [⟨"Company", "PkCompany", "BridgeCompanySubsidiary", "FkCompany"⟩]
     "urn:li:dataset:(urn:li:dataPlatform:mssql,ekofisk.CubeDevTest.UCube.Company,DEV)"
     [⟨"PkCompany", "NumberType"⟩] (by decide)⟩

/-- C2: for every fact table and every dataset whose identifier parses to a
table name, `get_fks` returns exactly one constraint per fact row whose
`child_table` equals the table name, with `name = child_key`,
`sourceFields = [child_key]`, `foreignFields = [parent_key]`, and
`foreignDataset` built from the invocation-time server/database/schema,
the row's `parent_table` and the environment literal `DEV`. -/
theorem get_fks_one_constraint_per_matching_row (fks_info : List KeyFactRow)
    (urn server db schema : String) (h : ¬ extract_table_name urn = "") :
    get_fks fks_info urn server db schema =
      (fks_info.filter (fun r => r.child_table = extract_table_name urn)).map
        (fun row =>
          { name := row.child_key
            sourceFields := [row.child_key]
            foreignFields := [row.parent_key]
            foreignDataset :=
              "urn:li:dataset:(urn:li:dataPlatform:mssql," ++ server ++ "." ++ db ++
                "." ++ schema ++ "." ++ row.parent_table ++ ",DEV)" }) := by
  unfold get_fks
  simp only [h, if_false]
  by_cases hany : fks_info.any (fun r => r.child_table = extract_table_name urn)
  · simp only [hany, if_true]
  · have hb : (fks_info.any (fun r => r.child_table = extract_table_name urn)) = false :=
      Bool.eq_false_iff.mpr hany
    have hf : fks_info.filter (fun r => r.child_table = extract_table_name urn) = [] :=
      filter_eq_nil_of_not_any _ _ hb
    rw [hb, hf]
    simp

/-- Witness for C2 at the spec scenario: one matching fact row yields
exactly the expected single constraint. -/
theorem get_fks_one_constraint_per_matching_row_witness :
    (¬ extract_table_name
        "urn:li:dataset:(urn:li:dataPlatform:mssql,ekofisk.CubeDevTest.UCube.BridgeCompanySubsidiary,DEV)" = "") ∧
    get_fks [⟨"Company", "PkCompany", "BridgeCompanySubsidiary", "FkCompany"⟩]
        "urn:li:dataset:(urn:li:dataPlatform:mssql,ekofisk.CubeDevTest.UCube.BridgeCompanySubsidiary,DEV)"
        "ekofisk" "CubeDevTest" "UCube" =
      ([⟨"Company", "PkCompany", "BridgeCompanySubsidiary", "FkCompany"⟩].filter
          (fun r : KeyFactRow => r.child_table = extract_table_name
            "urn:li:dataset:(urn:li:dataPlatform:mssql,ekofisk.CubeDevTest.UCube.BridgeCompanySubsidiary,DEV)")).map
        (fun row =>
          { name := row.child_key
            sourceFields := [row.child_key]
            foreignFields := [row.parent_key]
            foreignDataset :=
              "urn:li:dataset:(urn:li:dataPlatform:mssql," ++ "ekofisk" ++ "." ++
                "CubeDevTest" ++ "." ++ "UCube" ++ "." ++ row.parent_table ++ ",DEV)" }) :=
  ⟨by decide,
   get_fks_one_constraint_per_matching_row
     [⟨"Company", "PkCompany", "BridgeCompanySubsidiary", "FkCompany"⟩]
     "urn:li:dataset:(urn:li:dataPlatform:mssql,ekofisk.CubeDevTest.UCube.BridgeCompanySubsidiary,DEV)"
     "ekofisk" "CubeDevTest" "UCube" (by decide)⟩

/-- The closed set of structured field-type variants imported in
src/datahub_foreign_keys/modules/datahub_tools.py. -/
inductive FieldTypeClass where
  | NumberTypeClass
  | StringTypeClass
  | BooleanTypeClass
  | BytesTypeClass
  | DateTypeClass
  | TimeTypeClass
  | EnumTypeClass
  | NullTypeClass
  | MapTypeClass
  | ArrayTypeClass
  | UnionTypeClass
  | RecordTypeClass
deriving Repr, DecidableEq

/-- Embedding of `TYPE_CLASS_MAP`
(src/datahub_foreign_keys/modules/datahub_tools.py): the dictionary from
string type tags to structured type variants, as an association list in
source order. -/
def TYPE_CLASS_MAP : List (String × FieldTypeClass) :=
  [("NumberType", .NumberTypeClass),
   ("StringType", .StringTypeClass),
   ("BooleanType", .BooleanTypeClass),
   ("BytesType", .BytesTypeClass),
   ("DateType", .DateTypeClass),
   ("TimeType", .TimeTypeClass),
   ("EnumType", .EnumTypeClass),
   ("NullType", .NullTypeClass),
   ("MapType", .MapTypeClass),
   ("ArrayType", .ArrayTypeClass),
   ("UnionType", .UnionTypeClass),
   ("RecordType", .RecordTypeClass)]

/-- A schema field after `build_schema_field`: the original `fieldPath`
with the string tag resolved into a structured type variant (the other
attributes of the raw field are passed through unchanged by the `**field`
splat and carry no logic, so the embedding keeps the two fields the code
inspects). -/
structure SchemaField where
  fieldPath : String
  type : FieldTypeClass
deriving Repr, DecidableEq

/-- Embedding of `DatahubCustomBuilder.build_schema_field`
(src/datahub_foreign_keys/modules/datahub_tools.py): look the raw field's
tag up in `TYPE_CLASS_MAP`; an unknown tag raises
`ValueError(f"Unknown type: ...")`, embedded as `Except.error`. -/
def build_schema_field (field : RawField) : Except String SchemaField :=
  match (TYPE_CLASS_MAP.find? (fun p => p.1 = field.typeTag)).map (·.2) with
  | none => .error ("Unknown type: " ++ field.typeTag)
  | some t => .ok { fieldPath := field.fieldPath, type := t }

/-- C6: `build_schema_field` resolves each of the twelve recognized string
tags to the corresponding structured variant, and raises an unknown-type
error for every tag outside that closed set — no default type is
substituted. -/
theorem build_schema_field_closed_map (field : RawField) :
    (field.typeTag = "NumberType" →
      build_schema_field field = .ok ⟨field.fieldPath, .NumberTypeClass⟩) ∧
    (field.typeTag = "StringType" →
      build_schema_field field = .ok ⟨field.fieldPath, .StringTypeClass⟩) ∧
    (field.typeTag = "BooleanType" →
      build_schema_field field = .ok ⟨field.fieldPath, .BooleanTypeClass⟩) ∧
    (field.typeTag = "BytesType" →
      build_schema_field field = .ok ⟨field.fieldPath, .BytesTypeClass⟩) ∧
    (field.typeTag = "DateType" →
      build_schema_field field = .ok ⟨field.fieldPath, .DateTypeClass⟩) ∧
    (field.typeTag = "TimeType" →
      build_schema_field field = .ok ⟨field.fieldPath, .TimeTypeClass⟩) ∧
    (field.typeTag = "EnumType" →
      build_schema_field field = .ok ⟨field.fieldPath, .EnumTypeClass⟩) ∧
    (field.typeTag = "NullType" →
      build_schema_field field = .ok ⟨field.fieldPath, .NullTypeClass⟩) ∧
    (field.typeTag = "MapType" →
      build_schema_field field = .ok ⟨field.fieldPath, .MapTypeClass⟩) ∧
    (field.typeTag = "ArrayType" →
      build_schema_field field = .ok ⟨field.fieldPath, .ArrayTypeClass⟩) ∧
    (field.typeTag = "UnionType" →
      build_schema_field field = .ok ⟨field.fieldPath, .UnionTypeClass⟩) ∧
    (field.typeTag = "RecordType" →
      build_schema_field field = .ok ⟨field.fieldPath, .RecordTypeClass⟩) ∧
    (field.typeTag ∉ (["NumberType", "StringType", "BooleanType", "BytesType",
        "DateType", "TimeType", "EnumType", "NullType", "MapType", "ArrayType",
        "UnionType", "RecordType"] : List String) →
      build_schema_field field = .error ("Unknown type: " ++ field.typeTag)) := by
  obtain ⟨fp, tt⟩ := field
  refine ⟨?_, ?_, ?_, ?_, ?_, ?_, ?_, ?_, ?_, ?_, ?_, ?_, ?_⟩
  all_goals intro h
  case _ => replace h : tt = "NumberType" := h; subst h; rfl
  case _ => replace h : tt = "StringType" := h; subst h; rfl
  case _ => replace h : tt = "BooleanType" := h; subst h; rfl
  case _ => replace h : tt = "BytesType" := h; subst h; rfl
  case _ => replace h : tt = "DateType" := h; subst h; rfl
  case _ => replace h : tt = "TimeType" := h; subst h; rfl
  case _ => replace h : tt = "EnumType" := h; subst h; rfl
  case _ => replace h : tt = "NullType" := h; subst h; rfl
  case _ => replace h : tt = "MapType" := h; subst h; rfl
  case _ => replace h : tt = "ArrayType" := h; subst h; rfl
  case _ => replace h : tt = "UnionType" := h; subst h; rfl
  case _ => replace h : tt = "RecordType" := h; subst h; rfl
  case _ =>
    replace h : tt ∉ (["NumberType", "StringType", "BooleanType", "BytesType",
        "DateType", "TimeType", "EnumType", "NullType", "MapType", "ArrayType",
        "UnionType", "RecordType"] : List String) := h
    simp at h
    obtain ⟨h1, h2, h3, h4, h5, h6, h7, h8, h9, h10, h11, h12⟩ := h
    simp [build_schema_field, TYPE_CLASS_MAP, List.find?, Ne.symm h1, Ne.symm h2,
      Ne.symm h3, Ne.symm h4, Ne.symm h5, Ne.symm h6, Ne.symm h7, Ne.symm h8,
      Ne.symm h9, Ne.symm h10, Ne.symm h11, Ne.symm h12]

/-- Witness for C6: a recognized tag resolves, and an unrecognized tag is
rejected, at concrete fields. -/
theorem build_schema_field_closed_map_witness :
    ((⟨"PkCompany", "NumberType"⟩ : RawField).typeTag = "NumberType" ∧
      build_schema_field ⟨"PkCompany", "NumberType"⟩ =
        .ok ⟨"PkCompany", .NumberTypeClass⟩) ∧
    ((⟨"c", "FancyType"⟩ : RawField).typeTag ∉ (["NumberType", "StringType",
        "BooleanType", "BytesType", "DateType", "TimeType", "EnumType",
        "NullType", "MapType", "ArrayType", "UnionType", "RecordType"] : List String) ∧
      build_schema_field ⟨"c", "FancyType"⟩ = .error ("Unknown type: " ++ "FancyType")) :=
  ⟨⟨rfl, (build_schema_field_closed_map ⟨"PkCompany", "NumberType"⟩).1 rfl⟩,
   ⟨by decide,
    (build_schema_field_closed_map ⟨"c", "FancyType"⟩).2.2.2.2.2.2.2.2.2.2.2.2
      (by decide)⟩⟩

/-- Embedding of `DatahubCustomBuilder.make_field_urn`
(src/datahub_foreign_keys/modules/datahub_tools.py). -/
def make_field_urn (dataset_urn field_path : String) : String :=
  "urn:li:schemaField:(" ++ dataset_urn ++ "," ++ field_path ++ ")"

/-- Embedding of `ForeignKeyConstraintClass` as populated by `emit_keys`. -/
structure ForeignKeyConstraintClass where
  name : String
  sourceFields : List String
  foreignFields : List String
  foreignDataset : String
deriving Repr, DecidableEq

/-- The schema-metadata dictionary returned by
`DatahubCustomExtractor.extract_schema_field_metadata` and consumed by
`emit_keys`. -/
structure SchemaMetadataDict where
  schema_name : String
  platform : String
  version : Int
  hash : String
  platform_schema : String
  fields : List SchemaField
deriving Repr, DecidableEq

/-- Embedding of `SchemaMetadataClass` as built by `emit_keys`: the keyword
arguments passed to the constructor, with `primaryKeys`/`foreignKeys` as
`Option`s — `none` embeds the key being absent from
`schema_metadata_kwargs`. -/
structure SchemaMetadataClass where
  schemaName : String
  platform : String
  version : Int
  hash : String
  platformSchema : String
  fields : List SchemaField
  primaryKeys : Option (List String)
  foreignKeys : Option (List ForeignKeyConstraintClass)
deriving Repr, DecidableEq

/-- Embedding of the snapshot-construction part of
`DatahubCustomEmitter.emit_keys`
(src/datahub_foreign_keys/modules/datahub_tools.py): rewrite each
foreign-key dictionary into a `ForeignKeyConstraintClass` whose source and
foreign field paths become field URNs, copy the six schema-metadata entries
verbatim, and add the `primaryKeys`/`foreignKeys` keys only when the
corresponding lists are non-empty (Python truthiness of a list).  The
network emission of the resulting `MetadataChangeEventClass` is the
out-of-scope transport. -/
def emit_keys_snapshot (urn : String) (schema_metadata : SchemaMetadataDict)
    (primary_keys : List String) (foreign_keys : List FKDict) :
    SchemaMetadataClass :=
  let fk_constraints : List ForeignKeyConstraintClass := foreign_keys.map (fun fk =>
    { name := fk.name
      sourceFields := fk.sourceFields.map (fun sf => make_field_urn urn sf)
      foreignFields := fk.foreignFields.map (fun ff => make_field_urn fk.foreignDataset ff)
      foreignDataset := fk.foreignDataset })
  { schemaName := schema_metadata.schema_name
    platform := schema_metadata.platform
    version := schema_metadata.version
    hash := schema_metadata.hash
    platformSchema := schema_metadata.platform_schema
    fields := schema_metadata.fields
    primaryKeys := if primary_keys.isEmpty then none else some primary_keys
    foreignKeys := if fk_constraints.isEmpty then none else some fk_constraints }

/-- C4: the reconciled snapshot copies the six schema-metadata entries
verbatim from the fetched snapshot dictionary; `primaryKeys` is present
exactly when the inferred primary-key list is non-empty (and then equals
it); `foreignKeys` is absent exactly when the inferred foreign-key list is
empty; and with both lists empty both keys are absent.  The structure has
no other members, so nothing else of the snapshot is altered. -/
theorem emit_keys_snapshot_frame (urn : String) (sm : SchemaMetadataDict)
    (pks : List String) (fks : List FKDict) :
    (emit_keys_snapshot urn sm pks fks).schemaName = sm.schema_name ∧
    (emit_keys_snapshot urn sm pks fks).platform = sm.platform ∧
    (emit_keys_snapshot urn sm pks fks).version = sm.version ∧
    (emit_keys_snapshot urn sm pks fks).hash = sm.hash ∧
    (emit_keys_snapshot urn sm pks fks).platformSchema = sm.platform_schema ∧
    (emit_keys_snapshot urn sm pks fks).fields = sm.fields ∧
    (emit_keys_snapshot urn sm pks fks).primaryKeys =
      (if pks = [] then none else some pks) ∧
    ((emit_keys_snapshot urn sm pks fks).foreignKeys = none ↔ fks = []) ∧
    (emit_keys_snapshot urn sm [] []).primaryKeys = none ∧
    (emit_keys_snapshot urn sm [] []).foreignKeys = none := by
  refine ⟨rfl, rfl, rfl, rfl, rfl, rfl, ?_, ?_, rfl, rfl⟩
  · simp [emit_keys_snapshot, List.isEmpty_iff]
  · constructor
    · intro hnone
      simp only [emit_keys_snapshot] at hnone
      by_cases hfk : fks = []
      · exact hfk
      · exfalso
        have : ¬ (fks.map (fun fk : FKDict =>
            ({ name := fk.name
               sourceFields := fk.sourceFields.map (fun sf => make_field_urn urn sf)
               foreignFields := fk.foreignFields.map
                 (fun ff => make_field_urn fk.foreignDataset ff)
               foreignDataset := fk.foreignDataset } : ForeignKeyConstraintClass))).isEmpty = true := by
          simp [List.isEmpty_iff, hfk]
        rw [if_neg this] at hnone
        exact Option.some_ne_none _ hnone
    · intro hfk
      subst hfk
      rfl

/-- C10: the emitted foreign-key constraints never carry the bare field
paths: every `sourceFields` entry is rewritten to
`urn:li:schemaField:(<dataset urn>,<path>)`, every `foreignFields` entry to
`urn:li:schemaField:(<foreignDataset>,<path>)`, and `name` and
`foreignDataset` pass through unchanged; with no foreign keys the
`foreignKeys` key is absent. -/
theorem emit_keys_field_urn_rewrite (urn : String) (sm : SchemaMetadataDict)
    (pks : List String) (fks : List FKDict) :
    (emit_keys_snapshot urn sm pks fks).foreignKeys =
      (if fks = [] then none
       else some (fks.map (fun fk =>
        { name := fk.name
          sourceFields := fk.sourceFields.map
            (fun p => "urn:li:schemaField:(" ++ urn ++ "," ++ p ++ ")")
          foreignFields := fk.foreignFields.map
            (fun p => "urn:li:schemaField:(" ++ fk.foreignDataset ++ "," ++ p ++ ")")
          foreignDataset := fk.foreignDataset }))) := by
  by_cases hfk : fks = []
  · subst hfk
    rfl
  · simp only [emit_keys_snapshot, make_field_urn, if_neg hfk]
    have : ¬ (fks.map (fun fk : FKDict =>
        ({ name := fk.name
           sourceFields := fk.sourceFields.map
             (fun sf => "urn:li:schemaField:(" ++ urn ++ "," ++ sf ++ ")")
           foreignFields := fk.foreignFields.map
             (fun ff => "urn:li:schemaField:(" ++ fk.foreignDataset ++ "," ++ ff ++ ")")
           foreignDataset := fk.foreignDataset } : ForeignKeyConstraintClass))).isEmpty = true := by
      simp [List.isEmpty_iff, hfk]
    rw [if_neg this]

/-- The snapshot value at
`urn_json['responses'][urn]['aspects']['schemaMetadata']['value']` as used
by `extract_schema_field_metadata` and `get_pks`. -/
structure SnapshotValue where
  schemaName : String
  platform : String
  version : Int
  hash : String
  platformSchema : String
  fields : List RawField
deriving Repr, DecidableEq

/-- Embedding of `DatahubCustomExtractor.extract_schema_field_metadata`
(src/datahub_foreign_keys/modules/datahub_tools.py): copy the five scalar
entries and rebuild every raw field through `build_schema_field`; an
unknown type tag propagates as an error (an uncaught `ValueError` in the
source). -/
def extract_schema_field_metadata (sv : SnapshotValue) :
    Except String SchemaMetadataDict := do
  let fields ← sv.fields.mapM build_schema_field
  return { schema_name := sv.schemaName
           platform := sv.platform
           version := sv.version
           hash := sv.hash
           platform_schema := sv.platformSchema
           fields := fields }

/-- Embedding of one iteration of the domain loop in
`src/datahub_foreign_keys/main.py`: compute primary and foreign keys for
the dataset, extract its schema metadata and build the snapshot that
`emit_keys` sends to the catalog.  The result pairs the dataset URN with
the emitted snapshot; an error aborts the run (an uncaught exception in the
source). -/
def process_dataset (fks_info : List KeyFactRow) (server db schema : String)
    (dataset : String × SnapshotValue) :
    Except String (String × SchemaMetadataClass) := do
  let urn := dataset.1
  let primary_keys := get_pks fks_info urn dataset.2.fields
  let foreign_keys := get_fks fks_info urn server db schema
  let schema_metadata ← extract_schema_field_metadata dataset.2
  return (urn, emit_keys_snapshot urn schema_metadata primary_keys foreign_keys)

/-- Embedding of the domain loop of `main`
(src/datahub_foreign_keys/main.py): every dataset of the domain is
processed in order, and each iteration ends in one `emit_keys` call; the
resulting list records the write-backs in order. -/
def main_emissions (fks_info : List KeyFactRow) (server db schema : String)
    (datasets : List (String × SnapshotValue)) :
    Except String (List (String × SchemaMetadataClass)) :=
  datasets.mapM (process_dataset fks_info server db schema)

/-- C5 counterexample: the identifier `nocommas` has no comma segments, so
it cannot be parsed into a table name — yet the domain loop still emits a
write-back for this dataset (a snapshot with both key fields absent), so
the claim that no write-back is emitted for an unparseable dataset is
false. -/
theorem main_emits_on_unparseable_counterexample :
    extract_table_name "nocommas" = "" ∧
    main_emissions [] "srv" "db" "sch"
        [("nocommas", ⟨"sn", "mssql", 0, "h", "ps", []⟩)] =
      .ok [("nocommas", ⟨"sn", "mssql", 0, "h", "ps", [], none, none⟩)] := by
  constructor
  · rfl
  · rfl

/-- C5 amended: a dataset whose identifier cannot be parsed is skipped by
the key computation only — both inferred key lists are empty and a message
is logged — the failure is non-fatal, the loop continues, and other
datasets' processing is unaffected (the loop is element-wise); but a
write-back for the dataset is still emitted, carrying its schema metadata
with both key fields absent. -/
theorem unparseable_dataset_amended (fks_info : List KeyFactRow)
    (server db schema : String) (urn : String) (sv : SnapshotValue)
    (sm : SchemaMetadataDict)
    (hparse : extract_table_name urn = "")
    (hsm : extract_schema_field_metadata sv = .ok sm) :
    get_pks fks_info urn sv.fields = [] ∧
    get_fks fks_info urn server db schema = [] ∧
    process_dataset fks_info server db schema (urn, sv) =
      .ok (urn, emit_keys_snapshot urn sm [] []) ∧
    (emit_keys_snapshot urn sm [] []).primaryKeys = none ∧
    (emit_keys_snapshot urn sm [] []).foreignKeys = none ∧
    ∀ (pre post : List (String × SnapshotValue))
      (r₁ r₂ : List (String × SchemaMetadataClass)),
      main_emissions fks_info server db schema pre = .ok r₁ →
      main_emissions fks_info server db schema post = .ok r₂ →
      main_emissions fks_info server db schema (pre ++ (urn, sv) :: post) =
        .ok (r₁ ++ (urn, emit_keys_snapshot urn sm [] []) :: r₂) := by
  have hpks : get_pks fks_info urn sv.fields = [] := by
    unfold get_pks
    simp [hparse]
  have hfks : get_fks fks_info urn server db schema = [] := by
    unfold get_fks
    simp [hparse]
  have hproc : process_dataset fks_info server db schema (urn, sv) =
      .ok (urn, emit_keys_snapshot urn sm [] []) := by
    unfold process_dataset
    dsimp only
    rw [hpks, hfks, hsm]
    rfl
  refine ⟨hpks, hfks, hproc, rfl, rfl, ?_⟩
  intro pre post r₁ r₂ h₁ h₂
  unfold main_emissions at h₁ h₂ ⊢
  induction pre generalizing r₁ with
  | nil =>
    simp only [List.mapM_nil, pure] at h₁
    cases h₁
    simp only [List.nil_append, List.mapM_cons, hproc, h₂]
    rfl
  | cons d ds ih =>
    rw [List.mapM_cons] at h₁
    cases hd : process_dataset fks_info server db schema d with
    | error e => rw [hd] at h₁; cases h₁
    | ok v =>
      rw [hd] at h₁
      cases hds : ds.mapM (process_dataset fks_info server db schema) with
      | error e =>
        rw [hds] at h₁
        cases h₁
      | ok vs =>
        rw [hds] at h₁
        have hr₁ : (Except.ok (v :: vs) : Except String (List (String × SchemaMetadataClass))) =
            Except.ok r₁ := h₁
        cases hr₁
        have := ih vs hds
        simp only [List.cons_append, List.mapM_cons, hd, this]
        rfl

/-- Witness for the amended C5 at a concrete unparseable dataset. -/
theorem unparseable_dataset_amended_witness :
    (extract_table_name "nocommas" = "" ∧
      extract_schema_field_metadata ⟨"sn", "mssql", 0, "h", "ps", []⟩ =
        .ok ⟨"sn", "mssql", 0, "h", "ps", []⟩) ∧
    (get_pks [] "nocommas" (⟨"sn", "mssql", 0, "h", "ps", []⟩ : SnapshotValue).fields = [] ∧
     get_fks [] "nocommas" "srv" "db" "sch" = [] ∧
     process_dataset [] "srv" "db" "sch" ("nocommas", ⟨"sn", "mssql", 0, "h", "ps", []⟩) =
       .ok ("nocommas", emit_keys_snapshot "nocommas" ⟨"sn", "mssql", 0, "h", "ps", []⟩ [] []) ∧
     (emit_keys_snapshot "nocommas" ⟨"sn", "mssql", 0, "h", "ps", []⟩ [] []).primaryKeys = none ∧
     (emit_keys_snapshot "nocommas" ⟨"sn", "mssql", 0, "h", "ps", []⟩ [] []).foreignKeys = none ∧
     ∀ (pre post : List (String × SnapshotValue))
       (r₁ r₂ : List (String × SchemaMetadataClass)),
       main_emissions [] "srv" "db" "sch" pre = .ok r₁ →
       main_emissions [] "srv" "db" "sch" post = .ok r₂ →
       main_emissions [] "srv" "db" "sch" (pre ++ ("nocommas", ⟨"sn", "mssql", 0, "h", "ps", []⟩) :: post) =
         .ok (r₁ ++ ("nocommas", emit_keys_snapshot "nocommas" ⟨"sn", "mssql", 0, "h", "ps", []⟩ [] []) :: r₂)) :=
  ⟨⟨rfl, rfl⟩,
   unparseable_dataset_amended [] "srv" "db" "sch" "nocommas"
     ⟨"sn", "mssql", 0, "h", "ps", []⟩ ⟨"sn", "mssql", 0, "h", "ps", []⟩ rfl rfl⟩

/-- One search result entity in the GraphQL domain-search response. -/
structure SearchEntity where
  entityType : String
  urn : String
deriving Repr, DecidableEq

/-- One domain in the GraphQL `listDomains` response, with its entity
search results flattened to `entities.searchResults`. -/
structure DomainResult where
  urn : String
  searchResults : List SearchEntity
deriving Repr, DecidableEq

/-- The part of the HTTP response to the domain-search POST that the code
reads: the status code and
`response.json()['data']['listDomains']['domains']`. -/
structure DomainsResponse where
  status_code : Nat
  domains : List DomainResult
deriving Repr, DecidableEq

/-- Embedding of `DatahubCustomExtractor.get_urns_for_domain`
(src/datahub_foreign_keys/modules/datahub_tools.py): raise on a non-200
status; otherwise keep the domains whose urn equals
`urn:li:domain:<domain>` exactly, take the first (an uncaught `IndexError`
if there is none, embedded as an error), and return the urns of its search
results.  The HTTP transport is out of scope; the response is a
parameter. -/
def get_urns_for_domain (domain : String) (response : DomainsResponse) :
    Except String (List String) :=
  if response.status_code ≠ 200 then
    .error ("Error fetching URNs: " ++ toString response.status_code)
  else
    let domain_urn := "urn:li:domain:" ++ domain
    let domain_results := response.domains.filter (fun d => d.urn = domain_urn)
    match domain_results with
    | [] => .error "list index out of range"
    | d :: _ => .ok (d.searchResults.map (·.urn))

/-- Embedding of `PushStats.get_urns_for_domain`
(src/datahub_stats/modules/push_stats.py): raise on a non-200 status;
otherwise take the FIRST domain of the response — without checking its
urn — and return the urns of its search results. -/
def push_stats_get_urns_for_domain (domain : String) (response : DomainsResponse) :
    Except String (List String) :=
  if response.status_code ≠ 200 then
    .error ("Error fetching URNs: " ++ toString response.status_code)
  else
    match response.domains with
    | [] => .error "list index out of range"
    | d :: _ => .ok (d.searchResults.map (·.urn))

/-- C7 counterexample: at status 200 with a single search-result domain
whose urn is `urn:li:domain:other`, the stats variant of the domain
listing, called for domain `dom`, succeeds and returns the entity
identifier `e1` — an identifier belonging to a domain whose urn is not
`urn:li:domain:dom` — so the claim that every domain-listing call returns
only identifiers of the exactly-matching domain is false. -/
theorem domain_listing_counterexample :
    push_stats_get_urns_for_domain "dom"
        ⟨200, [⟨"urn:li:domain:other", [⟨"DATASET", "e1"⟩]⟩]⟩ = .ok ["e1"] ∧
    (∀ d : DomainResult,
      d ∈ (⟨200, [⟨"urn:li:domain:other", [⟨"DATASET", "e1"⟩]⟩]⟩ : DomainsResponse).domains →
        ¬ d.urn = "urn:li:domain:" ++ "dom") := by
  constructor
  · rfl
  · intro d hd
    simp only [List.mem_singleton] at hd
    subst hd
    decide

/-- C7 amended: every domain-listing call raises on a non-success HTTP
status; on success the foreign-key extractor's variant returns exactly the
entity identifiers of the first response domain whose urn equals
`urn:li:domain:<domain>` (and fails when there is none), while the stats
variant returns the entity identifiers of the first response domain
regardless of its urn. -/
theorem domain_listing_amended (domain : String) (response : DomainsResponse) :
    (¬ response.status_code = 200 →
      (∃ e, get_urns_for_domain domain response = .error e) ∧
      (∃ e, push_stats_get_urns_for_domain domain response = .error e)) ∧
    (∀ l, get_urns_for_domain domain response = .ok l →
      ∃ d, d ∈ response.domains ∧ d.urn = "urn:li:domain:" ++ domain ∧
        l = d.searchResults.map (·.urn)) ∧
    (∀ l, push_stats_get_urns_for_domain domain response = .ok l →
      ∃ d rest, response.domains = d :: rest ∧ l = d.searchResults.map (·.urn)) := by
  refine ⟨?_, ?_, ?_⟩
  · intro h
    constructor
    · exact ⟨_, by unfold get_urns_for_domain; rw [if_pos h]⟩
    · exact ⟨_, by unfold push_stats_get_urns_for_domain; rw [if_pos h]⟩
  · intro l hl
    unfold get_urns_for_domain at hl
    by_cases h : response.status_code = 200
    · rw [if_neg (fun hc => hc h)] at hl
      dsimp only at hl
      cases hfilter : response.domains.filter
          (fun d => d.urn = "urn:li:domain:" ++ domain) with
      | nil => rw [hfilter] at hl; cases hl
      | cons d ds =>
        rw [hfilter] at hl
        have hok : (Except.ok (d.searchResults.map (·.urn)) :
            Except String (List String)) = Except.ok l := hl
        cases hok
        have hmem : d ∈ response.domains.filter
            (fun dd => dd.urn = "urn:li:domain:" ++ domain) := by
          rw [hfilter]; exact List.mem_cons_self d ds
        have hmem' := List.mem_filter.mp hmem
        exact ⟨d, hmem'.1, by simpa using hmem'.2, rfl⟩
    · rw [if_pos h] at hl
      cases hl
  · intro l hl
    unfold push_stats_get_urns_for_domain at hl
    by_cases h : response.status_code = 200
    · rw [if_neg (fun hc => hc h)] at hl
      cases hdom : response.domains with
      | nil => rw [hdom] at hl; cases hl
      | cons d ds =>
        rw [hdom] at hl
        have hok : (Except.ok (d.searchResults.map (·.urn)) :
            Except String (List String)) = Except.ok l := hl
        cases hok
        exact ⟨d, ds, rfl, rfl⟩
    · rw [if_pos h] at hl
      cases hl

/-- Witness for the amended C7: a non-success status makes both variants
fail, and a successful matching response yields the matching domain. -/
theorem domain_listing_amended_witness :
    ((¬ (⟨500, []⟩ : DomainsResponse).status_code = 200) ∧
      (∃ e, get_urns_for_domain "dom" ⟨500, []⟩ = .error e) ∧
      (∃ e, push_stats_get_urns_for_domain "dom" ⟨500, []⟩ = .error e)) ∧
    (get_urns_for_domain "dom"
        ⟨200, [⟨"urn:li:domain:dom", [⟨"DATASET", "e1"⟩]⟩]⟩ = .ok ["e1"] ∧
      ∃ d, d ∈ (⟨200, [⟨"urn:li:domain:dom", [⟨"DATASET", "e1"⟩]⟩]⟩ : DomainsResponse).domains ∧
        d.urn = "urn:li:domain:" ++ "dom" ∧
        ["e1"] = d.searchResults.map (·.urn)) :=
  ⟨⟨by decide,
    (domain_listing_amended "dom" ⟨500, []⟩).1 (by decide)⟩,
   ⟨rfl,
    (domain_listing_amended "dom"
      ⟨200, [⟨"urn:li:domain:dom", [⟨"DATASET", "e1"⟩]⟩]⟩).2.1 ["e1"] rfl⟩⟩

/-- The default of the `distinct_max` parameter of
`SampleValues.column_distinct_values`
(src/datahub_stats/modules/generate_stats.py). -/
def distinct_max_default : Nat := 10000

/-- The value computed by the body of the
`with self.MSSQLConnection(...)` block of
`SampleValues.column_distinct_values`
(src/datahub_stats/modules/generate_stats.py).  `distinct_count` is the
database's answer to the `COUNT(DISTINCT ...)` query and `rows` its answer
to the `SELECT DISTINCT` query (first column of each row, an integer in
the embedding — the source stringifies each with `str`).  The returned
Boolean records whether the `SELECT DISTINCT` query was executed: at or
below the threshold the query runs and every distinct value is computed
stringified; strictly above it the body logs a warning and computes the
empty list without running the query.  This is only the value the
`return` statement hands to the context manager; see
`column_distinct_values` for the fate of the full call. -/
def column_distinct_values_body (distinct_count : Nat) (distinct_max : Nat)
    (rows : List Int) : List String × Bool :=
  if distinct_count ≤ distinct_max then (rows.map (fun v => toString v), true)
  else ([], false)

/-- The number of parameters in the declaration
`def __exit__(self):` of `SampleValues.MSSQLConnection`
(src/datahub_stats/modules/generate_stats.py): only `self`. -/
def mssql_connection_exit_params : Nat := 1

/-- The number of positional arguments the Python with-statement protocol
passes when leaving the block: the bound `self` plus
`(exc_type, exc_val, exc_tb)`. -/
def with_protocol_exit_args : Nat := 4

/-- The `__exit__` invocation made when the with-block of
`column_distinct_values` is left: the declared parameter count does not
match the protocol's argument count, so the interpreter raises a
`TypeError` before the method body (which would close the connection) can
run. -/
def mssql_connection_exit : Except String Unit :=
  if with_protocol_exit_args = mssql_connection_exit_params then .ok ()
  else .error "TypeError: __exit__() takes 1 positional argument but 4 were given"

/-- Embedding of a full call of `SampleValues.column_distinct_values`
(src/datahub_stats/modules/generate_stats.py): the with-block body runs —
its side effects, recorded by the executed-query flag, happen — and both
branches return from inside the block, so leaving the block invokes the
context manager's `__exit__`; the arity error raises, discarding the
computed return value.  The result pairs the call's outcome with the flag
recording whether the `SELECT DISTINCT` query was executed. -/
def column_distinct_values (distinct_count : Nat) (distinct_max : Nat)
    (rows : List Int) : Except String (List String) × Bool :=
  let body := column_distinct_values_body distinct_count distinct_max rows
  match mssql_connection_exit with
  | .error e => (.error e, body.2)
  | .ok _ => (.ok body.1, body.2)

/-- C8 (code bug): the claim describes what the with-block body computes —
strictly above the threshold (default ten thousand) the empty list, with a
warning and without ever executing the full `SELECT DISTINCT` query; at or
below it the query is executed and every distinct value stringified — but
the function never returns either value: `MSSQLConnection.__exit__` is
declared with only `self` while the with-statement protocol calls it with
four positional arguments, so every call of `column_distinct_values`
raises a `TypeError` at block exit and the computed result is
discarded. -/
theorem column_distinct_values_exit_type_error (distinct_count distinct_max : Nat)
    (rows : List Int) :
    distinct_max_default = 10000 ∧
    (column_distinct_values distinct_count distinct_max rows).1 =
      .error "TypeError: __exit__() takes 1 positional argument but 4 were given" ∧
    (distinct_max < distinct_count →
      column_distinct_values_body distinct_count distinct_max rows = ([], false) ∧
      column_distinct_values distinct_count distinct_max rows =
        (.error "TypeError: __exit__() takes 1 positional argument but 4 were given",
         false)) ∧
    (distinct_count ≤ distinct_max →
      column_distinct_values_body distinct_count distinct_max rows =
        (rows.map (fun v => toString v), true) ∧
      column_distinct_values distinct_count distinct_max rows =
        (.error "TypeError: __exit__() takes 1 positional argument but 4 were given",
         true)) := by
  refine ⟨rfl, rfl, ?_, ?_⟩
  · intro h
    have hb : column_distinct_values_body distinct_count distinct_max rows = ([], false) := by
      unfold column_distinct_values_body
      rw [if_neg (Nat.not_le.mpr h)]
    refine ⟨hb, ?_⟩
    simp only [column_distinct_values, hb]
    rfl
  · intro h
    have hb : column_distinct_values_body distinct_count distinct_max rows =
        (rows.map (fun v => toString v), true) := by
      unfold column_distinct_values_body
      rw [if_pos h]
    refine ⟨hb, ?_⟩
    simp only [column_distinct_values, hb]
    rfl

/-- Witness for C8 at the spec scenario: a count of 15000 against the
default threshold of 10000 computes no samples and skips the query, a
count of 3 executes the query and computes the stringified values, and in
both cases the call raises the arity `TypeError` instead of returning. -/
theorem column_distinct_values_exit_type_error_witness :
    (distinct_max_default < 15000 ∧
      (column_distinct_values_body 15000 distinct_max_default [] = ([], false) ∧
       column_distinct_values 15000 distinct_max_default [] =
         (.error "TypeError: __exit__() takes 1 positional argument but 4 were given",
          false))) ∧
    ((3 : Nat) ≤ distinct_max_default ∧
      (column_distinct_values_body 3 distinct_max_default [1, 2, 5] =
         ([1, 2, 5].map (fun v => toString v), true) ∧
       column_distinct_values 3 distinct_max_default [1, 2, 5] =
         (.error "TypeError: __exit__() takes 1 positional argument but 4 were given",
          true))) :=
  ⟨⟨by decide,
    (column_distinct_values_exit_type_error 15000 distinct_max_default []).2.2.1
      (by decide)⟩,
   ⟨by decide,
    (column_distinct_values_exit_type_error 3 distinct_max_default [1, 2, 5]).2.2.2
      (by decide)⟩⟩

/-- The 32 spaces of indentation that the source's triple-quoted f-string
carries on each continuation line. -/
def sp32 : String := "                                "

/-- The SQL data types treated as numeric by `MinMaxStats.min_max_query_creator`
(src/datahub_stats/modules/generate_stats.py). -/
def numeric_types : List String :=
  ["int", "smallint", "bigint", "decimal", "numeric", "float", "real"]

/-- The f-string branch of `min_max_query_creator` for a numeric column,
transcribed byte-for-byte (trailing spaces before the newlines included;
`\x27` is the single-quote character). -/
def query_part_numeric (schema_name view_name column data_type : String) : String :=
  "SELECT \x27" ++ column ++ "\x27 AS column_name,\n" ++ sp32 ++
  "\x27" ++ data_type ++ "\x27 AS data_type, \n" ++ sp32 ++
  "(SELECT MIN([" ++ column ++ "]) FROM " ++ schema_name ++ "." ++ view_name ++
  ") AS min_val, \n" ++ sp32 ++
  "(SELECT MAX([" ++ column ++ "]) FROM " ++ schema_name ++ "." ++ view_name ++
  ") AS max_val"

/-- The f-string branch of `min_max_query_creator` for a non-numeric
column, transcribed byte-for-byte. -/
def query_part_null (column data_type : String) : String :=
  "SELECT \x27" ++ column ++ "\x27 AS column_name,\n" ++ sp32 ++
  "\x27" ++ data_type ++ "\x27 AS data_type, \n" ++ sp32 ++
  "NULL AS min_val, \n" ++ sp32 ++
  "NULL AS max_val"

/-- Embedding of `MinMaxStats.min_max_query_creator`
(src/datahub_stats/modules/generate_stats.py): iterate over the column-info
mapping (a Python dict, embedded as the ordered list of its entries),
append one query part per column — the MIN/MAX branch when the data type
is numeric, the NULL branch otherwise — and join the parts with
`\nUNION ALL \n\n`, appending a final semicolon.  The `column_info`
database call that produces the mapping is the out-of-scope transport; the
mapping is a parameter. -/
def min_max_query_creator (schema_name view_name : String)
    (columns_info : List (String × String)) : String :=
  let query_parts := columns_info.foldl (fun acc cd =>
    let is_numeric := cd.2 ∈ numeric_types
    if is_numeric then
      acc ++ [query_part_numeric schema_name view_name cd.1 cd.2]
    else
      acc ++ [query_part_null cd.1 cd.2]) []
  String.intercalate "\nUNION ALL \n\n" query_parts ++ ";"

/-- `pat` occurs as a contiguous substring of `s`. -/
def strContains (s pat : String) : Prop :=
  ∃ x y, s = x ++ pat ++ y

/-- Folding snoc-appends over a list starting from `acc` is `acc` followed
by the map. -/
theorem foldl_snoc_eq_map {α β : Type} (f : α → β) :
    ∀ (l : List α) (acc : List β),
      l.foldl (fun a x => a ++ [f x]) acc = acc ++ l.map f := by
  intro l
  induction l with
  | nil => intro acc; simp
  | cons x xs ih =>
    intro acc
    simp only [List.foldl_cons, List.map_cons]
    rw [ih]
    simp

/-- C9: the generated min/max statistics query is the `UNION ALL` join of
exactly one SELECT branch per column of the column-info mapping, where the
branch is the MIN/MAX template exactly when the column's data type is one
of the seven numeric types and the literal-NULL template otherwise; every
branch carries the quoted column name and data type as constants, the
numeric template contains the `SELECT MIN`/`SELECT MAX` subqueries, and
the other template the literal `NULL` min/max columns. -/
theorem min_max_query_creator_branches (schema_name view_name : String)
    (columns_info : List (String × String)) :
    min_max_query_creator schema_name view_name columns_info =
      String.intercalate "\nUNION ALL \n\n"
        (columns_info.map (fun cd =>
          if cd.2 ∈ numeric_types then
            query_part_numeric schema_name view_name cd.1 cd.2
          else query_part_null cd.1 cd.2)) ++ ";" ∧
    ∀ column data_type : String,
      strContains (query_part_numeric schema_name view_name column data_type)
        "(SELECT MIN([" ∧
      strContains (query_part_numeric schema_name view_name column data_type)
        "(SELECT MAX([" ∧
      strContains (query_part_null column data_type) "NULL AS min_val, \n" ∧
      strContains (query_part_null column data_type) "NULL AS max_val" ∧
      strContains (query_part_numeric schema_name view_name column data_type)
        (column ++ "\x27 AS column_name,\n") ∧
      strContains (query_part_numeric schema_name view_name column data_type)
        ("\x27" ++ data_type ++ "\x27 AS data_type, \n") ∧
      strContains (query_part_null column data_type)
        (column ++ "\x27 AS column_name,\n") ∧
      strContains (query_part_null column data_type)
        ("\x27" ++ data_type ++ "\x27 AS data_type, \n") := by
  constructor
  · unfold min_max_query_creator
    have hfun : (fun (acc : List String) (cd : String × String) =>
        let is_numeric := cd.2 ∈ numeric_types
        if is_numeric then
          acc ++ [query_part_numeric schema_name view_name cd.1 cd.2]
        else
          acc ++ [query_part_null cd.1 cd.2]) =
        (fun acc cd => acc ++ [if cd.2 ∈ numeric_types then
          query_part_numeric schema_name view_name cd.1 cd.2
          else query_part_null cd.1 cd.2]) := by
      funext acc cd
      by_cases hn : cd.2 ∈ numeric_types
      · simp [hn]
      · simp [hn]
    rw [hfun, foldl_snoc_eq_map, List.nil_append]
  · intro column data_type
    refine ⟨?_, ?_, ?_, ?_, ?_, ?_, ?_, ?_⟩
    · exact ⟨"SELECT \x27" ++ column ++ "\x27 AS column_name,\n" ++ sp32 ++
        "\x27" ++ data_type ++ "\x27 AS data_type, \n" ++ sp32,
        column ++ "]) FROM " ++ schema_name ++ "." ++ view_name ++
        ") AS min_val, \n" ++ sp32 ++ "(SELECT MAX([" ++ column ++ "]) FROM " ++
        schema_name ++ "." ++ view_name ++ ") AS max_val",
        by simp [query_part_numeric, String.append_assoc]⟩
    · exact ⟨"SELECT \x27" ++ column ++ "\x27 AS column_name,\n" ++ sp32 ++
        "\x27" ++ data_type ++ "\x27 AS data_type, \n" ++ sp32 ++
        "(SELECT MIN([" ++ column ++ "]) FROM " ++ schema_name ++ "." ++ view_name ++
        ") AS min_val, \n" ++ sp32,
        column ++ "]) FROM " ++ schema_name ++ "." ++ view_name ++ ") AS max_val",
        by simp [query_part_numeric, String.append_assoc]⟩
    · exact ⟨"SELECT \x27" ++ column ++ "\x27 AS column_name,\n" ++ sp32 ++
        "\x27" ++ data_type ++ "\x27 AS data_type, \n" ++ sp32,
        sp32 ++ "NULL AS max_val",
        by simp [query_part_null, String.append_assoc]⟩
    · exact ⟨"SELECT \x27" ++ column ++ "\x27 AS column_name,\n" ++ sp32 ++
        "\x27" ++ data_type ++ "\x27 AS data_type, \n" ++ sp32 ++
        "NULL AS min_val, \n" ++ sp32, "",
        by simp [query_part_null, String.append_assoc]⟩
    · exact ⟨"SELECT \x27",
        sp32 ++ "\x27" ++ data_type ++ "\x27 AS data_type, \n" ++ sp32 ++
        "(SELECT MIN([" ++ column ++ "]) FROM " ++ schema_name ++ "." ++ view_name ++
        ") AS min_val, \n" ++ sp32 ++ "(SELECT MAX([" ++ column ++ "]) FROM " ++
        schema_name ++ "." ++ view_name ++ ") AS max_val",
        by simp [query_part_numeric, String.append_assoc]⟩
    · exact ⟨"SELECT \x27" ++ column ++ "\x27 AS column_name,\n" ++ sp32,
        sp32 ++ "(SELECT MIN([" ++ column ++ "]) FROM " ++ schema_name ++ "." ++
        view_name ++ ") AS min_val, \n" ++ sp32 ++ "(SELECT MAX([" ++ column ++
        "]) FROM " ++ schema_name ++ "." ++ view_name ++ ") AS max_val",
        by simp [query_part_numeric, String.append_assoc]⟩
    · exact ⟨"SELECT \x27",
        sp32 ++ "\x27" ++ data_type ++ "\x27 AS data_type, \n" ++ sp32 ++
        "NULL AS min_val, \n" ++ sp32 ++ "NULL AS max_val",
        by simp [query_part_null, String.append_assoc]⟩
    · exact ⟨"SELECT \x27" ++ column ++ "\x27 AS column_name,\n" ++ sp32,
        sp32 ++ "NULL AS min_val, \n" ++ sp32 ++ "NULL AS max_val",
        by simp [query_part_null, String.append_assoc]⟩

end DataCatalog
